import Mathlib

/-!
Verification of `src/network/builder.rs` of avail-light: the network
configuration builder (`NetworkBuilder`) and the peer address parser
(`parse_str_addr` / `parse_addr`), shallowly embedded in Lean 4.

Machine data: bytes are `Nat` values below 256; byte buffers (the
`SmallVec<[u8; 6]>` chain tag, multihash digests) are `List Nat`;
the opaque boxed executor closure is a type parameter `E`.

The multiaddr / libp2p library types (`Multiaddr`, `PeerId`, multihash
decoding, the textual multiaddr grammar) are external crates, not part of
this repository; they are modelled from the spec where noted.
-/

/-- Modelled from the spec: a multihash is "a self-describing hash encoding
(algorithm tag + digest)".  The algorithm tag is one byte here (all codes
used by peer identities are below 128, where the varint is one byte). -/
structure Multihash where
  code : Nat
  digest : List Nat
deriving DecidableEq

/-- Modelled from the spec: one segment of a composite address — either a
"p2p"/overlay-identity protocol segment carrying a multihash, or any other
protocol/value segment (network-layer address, transport port, ...). -/
inductive Protocol where
  | p2p (key : Multihash)
  | other (tag : String) (val : String)
deriving DecidableEq

/-- Modelled from the spec: a `RoutableAddress` is "an ordered sequence of
transport-layer protocol segments". -/
abbrev Multiaddr := List Protocol

/-- Rust `Multiaddr::pop`: removes and returns the last segment; on the
empty address it returns `none` and leaves the address empty. -/
def Multiaddr.pop (a : Multiaddr) : Option Protocol × Multiaddr :=
  (a.getLast?, a.dropLast)

/-- Modelled from the spec: a `PeerIdentity` is "an opaque, globally unique
cryptographic identifier ... derived from a public-key hash (multihash)". -/
structure PeerId where
  hash : Multihash
deriving DecidableEq

/-- Modelled from the spec: "Invalid byte encodings must be rejected at
construction time".  A multihash is a valid peer identity when it is a
sha2-256 hash (code 0x12 with a 32-byte digest) or an inlined identity
key (code 0x00 with at most 42 bytes); on failure the multihash is handed
back as the error value, as in `PeerId::from_multihash`. -/
def PeerId.from_multihash (m : Multihash) : Except Multihash PeerId :=
  if (m.code = 18 ∧ m.digest.length = 32) ∨ (m.code = 0 ∧ m.digest.length ≤ 42) then
    Except.ok ⟨m⟩
  else
    Except.error m

/-- Modelled from the spec: the low-level diagnostic produced by the
external multiaddr library when the input text "is not a syntactically
valid composite address"; the source only wraps it, never inspects it. -/
inductive multiaddrError where
  | invalidMultiaddr
  | invalidMultihash
deriving DecidableEq

/-- Base58 alphabet of the multihash textual encoding (bitcoin alphabet). -/
def base58Alphabet : List Char :=
  "123456789ABCDEFGHJKLMNPQRSTUVWXYZabcdefghijkmnopqrstuvwxyz".toList

/-- Value of one base58 digit, `none` for a character outside the alphabet. -/
def base58DigitVal (c : Char) : Option Nat :=
  List.indexOf? c base58Alphabet

/-- Little-endian byte expansion of a natural number, driven by a fuel
argument that bounds the number of extracted bytes; `n` itself is always
enough fuel since each step divides by 256. -/
def natBytesAux : Nat → Nat → List Nat
  | 0, _ => []
  | fuel + 1, n => if n = 0 then [] else (n % 256) :: natBytesAux fuel (n / 256)
-- structural recursion on the first (fuel) argument

/-- Little-endian byte expansion of a natural number (empty for zero). -/
def natToBytesRev (n : Nat) : List Nat :=
  natBytesAux n n

/-- Modelled from the spec: base58 decoding of a textual multihash payload
to its byte sequence; leading `1` characters stand for leading zero bytes. -/
def base58Decode (s : String) : Option (List Nat) :=
  let cs := s.toList
  if cs = [] then none
  else
    match cs.mapM base58DigitVal with
    | none => none
    | some ds =>
        let v := ds.foldl (fun acc d => acc * 58 + d) 0
        let zeros := (cs.takeWhile (fun c => c = '1')).length
        some (List.replicate zeros 0 ++ (natToBytesRev v).reverse)

/-- Modelled from the spec: reading a "self-describing hash encoding
(algorithm tag + digest)" from bytes — one code byte, one length byte, and
a digest whose length must match the declared length. -/
def Multihash.fromBytes (bs : List Nat) : Option Multihash :=
  match bs with
  | code :: len :: digest =>
      if digest.length = len then some ⟨code, digest⟩ else none
  | _ => none

/-- Modelled from the spec: decoding a `p2p` segment payload, base58 text
of a multihash. -/
def Multihash.fromBase58 (s : String) : Option Multihash :=
  match base58Decode s with
  | none => none
  | some bs => Multihash.fromBytes bs

/-- Splits a character list at `/` boundaries into segments. -/
def splitSlash : List Char → List Char → List String
  | [], acc => [String.mk acc.reverse]
  | c :: rest, acc =>
      if c = '/' then String.mk acc.reverse :: splitSlash rest []
      else splitSlash rest (c :: acc)

/-- Modelled from the spec: consuming the `/`-delimited parts pairwise as
protocol/value pairs; a `p2p` protocol's value must decode as a multihash,
any other non-empty protocol name is kept with its value verbatim. -/
def segmentsOfParts : List String → Except multiaddrError (List Protocol)
  | [] => Except.ok []
  | [_] => Except.error multiaddrError.invalidMultiaddr
  | tag :: val :: rest =>
      if tag = "" then Except.error multiaddrError.invalidMultiaddr
      else if tag = "p2p" then
        match Multihash.fromBase58 val with
        | none => Except.error multiaddrError.invalidMultihash
        | some mh =>
            match segmentsOfParts rest with
            | Except.error e => Except.error e
            | Except.ok ps => Except.ok (Protocol.p2p mh :: ps)
      else
        match segmentsOfParts rest with
        | Except.error e => Except.error e
        | Except.ok ps => Except.ok (Protocol.other tag val :: ps)

/-- Modelled from the spec: the textual multiaddr grammar — "a multi-segment
composite address string using `/`-delimited protocol/value pairs"; text not
starting with `/` cannot be tokenized at all. -/
def Multiaddr.fromString (s : String) : Except multiaddrError Multiaddr :=
  match s.toList with
  | [] => Except.error multiaddrError.invalidMultiaddr
  | c :: rest =>
      if c = '/' then segmentsOfParts (splitSlash rest [])
      else Except.error multiaddrError.invalidMultiaddr

/-- Error type of `parse_str_addr` / `parse_addr`, from the source:
`MultiaddrParse` wraps the low-level multiaddr diagnostic, `InvalidPeerId`
and `PeerIdMissing` are the two structural failures. -/
inductive ParseErr where
  | MultiaddrParse (err : multiaddrError)
  | InvalidPeerId
  | PeerIdMissing
deriving DecidableEq

/-- Source `impl From<multiaddr::Error> for ParseErr`: wraps the low-level
diagnostic into `MultiaddrParse`. -/
def ParseErr.fromMultiaddrError (err : multiaddrError) : ParseErr :=
  ParseErr.MultiaddrParse err

/-- Source `parse_addr`: pops the last segment; a `p2p` segment is decoded
into a `PeerId` (failure of the decode maps to `InvalidPeerId`); any other
outcome of the pop is `PeerIdMissing`. -/
def parse_addr (addr : Multiaddr) : Except ParseErr (PeerId × Multiaddr) :=
  match Multiaddr.pop addr with
  | (some (Protocol.p2p key), rest) =>
      match PeerId.from_multihash key with
      | Except.ok who => Except.ok (who, rest)
      | Except.error _ => Except.error ParseErr.InvalidPeerId
  | _ => Except.error ParseErr.PeerIdMissing

/-- Source `parse_str_addr`: parses the string into a `Multiaddr` (the `?`
operator converts a parse failure through `From<multiaddr::Error>`), then
delegates to `parse_addr`. -/
def parse_str_addr (s : String) : Except ParseErr (PeerId × Multiaddr) :=
  match Multiaddr.fromString s with
  | Except.error e => Except.error (ParseErr.fromMultiaddrError e)
  | Except.ok addr => parse_addr addr

/-- Configuration handed to the worker, from the struct literal inside
`build`: exactly the fields `known_addresses` and `chain_spec_protocol_id`. -/
structure workerConfig where
  known_addresses : List (PeerId × Multiaddr)
  chain_spec_protocol_id : List Nat
deriving DecidableEq

/-- Source `NetworkBuilder`: optional executor (opaque closure, modelled by
the type parameter `E`), chain-spec protocol id byte tag, boot-node list. -/
structure NetworkBuilder (E : Type) where
  executor : Option E
  chain_spec_protocol_id : List Nat
  boot_nodes : List (PeerId × Multiaddr)

/-- Source `builder()`: no executor, tag `b"sup"` = `[115, 117, 112]`,
empty boot-node list. -/
def builder (E : Type) : NetworkBuilder E :=
  { executor := none
    chain_spec_protocol_id := [115, 117, 112]
    boot_nodes := [] }

/-- Source `with_executor`: consuming form; stores the executor. -/
def NetworkBuilder.with_executor (b : NetworkBuilder E) (e : E) : NetworkBuilder E :=
  { b with executor := some e }

/-- Source `set_boot_nodes`: replaces the boot-node list with the collected
input sequence. -/
def NetworkBuilder.set_boot_nodes (b : NetworkBuilder E)
    (list : List (PeerId × Multiaddr)) : NetworkBuilder E :=
  { b with boot_nodes := list }

/-- Source `with_boot_nodes`: consuming form, delegates to
`set_boot_nodes` and returns self. -/
def NetworkBuilder.with_boot_nodes (b : NetworkBuilder E)
    (list : List (PeerId × Multiaddr)) : NetworkBuilder E :=
  NetworkBuilder.set_boot_nodes b list

/-- Source `set_chain_spec_protocol_id`: replaces the tag with a copy of
the given bytes (`id.as_ref().into_iter().cloned().collect()`). -/
def NetworkBuilder.set_chain_spec_protocol_id (b : NetworkBuilder E)
    (id : List Nat) : NetworkBuilder E :=
  { b with chain_spec_protocol_id := id }

/-- Source `with_chain_spec_protocol_id`: consuming form, delegates to
`set_chain_spec_protocol_id` and returns self. -/
def NetworkBuilder.with_chain_spec_protocol_id (b : NetworkBuilder E)
    (id : List Nat) : NetworkBuilder E :=
  NetworkBuilder.set_chain_spec_protocol_id b id

/-- Source `build`: the configuration value that the builder hands to the
external `worker::Network::start` — the struct literal built from `self`.
The asynchronous start itself is the external worker and out of scope. -/
def NetworkBuilder.build (b : NetworkBuilder E) : workerConfig :=
  { known_addresses := b.boot_nodes
    chain_spec_protocol_id := b.chain_spec_protocol_id }

/-- The public mutating operations of `NetworkBuilder` that consume `self`
and return it, as declared in the source impl block. -/
inductive BuilderOp where
  | withExecutor
  | withBootNodes
  | withChainSpecProtocolId
deriving DecidableEq

/-- Whether the source impl block declares a mutate-in-place (`&mut self`)
counterpart for the given consuming operation: `set_boot_nodes` and
`set_chain_spec_protocol_id` exist, a `set_executor` does not. -/
def BuilderOp.hasInPlaceCounterpart : BuilderOp → Bool
  | BuilderOp.withExecutor => false
  | BuilderOp.withBootNodes => true
  | BuilderOp.withChainSpecProtocolId => true

/-! Theorems. -/

/-- C1: for every well-formed composite address string whose final segment
is a p2p segment carrying a valid identity multihash, `parse_str_addr`
succeeds and returns the decoded identity together with the input address
with exactly the trailing identity segment removed: the preceding segments
are returned unchanged and in order, and the segment count of the input
exceeds that of the result by exactly one. -/
theorem parse_str_addr_strips_trailing_p2p
    (s : String) (pre : Multiaddr) (k : Multihash) (pid : PeerId)
    (hparse : Multiaddr.fromString s = Except.ok (pre ++ [Protocol.p2p k]))
    (hkey : PeerId.from_multihash k = Except.ok pid) :
    parse_str_addr s = Except.ok (pid, pre)
      ∧ (pre ++ [Protocol.p2p k]).length = pre.length + 1 := by
  constructor
  · simp only [parse_str_addr, hparse, parse_addr, Multiaddr.pop,
      List.getLast?_concat, List.dropLast_concat, hkey]
  · simp

/-- Witness for C1: the documentation example address. -/
theorem parse_str_addr_strips_trailing_p2p_witness :
    parse_str_addr
        "/ip4/198.51.100.19/tcp/30333/p2p/QmSk5HQbn6LhUwDiNMseVUjuRYhEtYj4aUZ6WfWoGURpdV"
      = Except.ok
          (⟨⟨18, [65, 110, 228, 116, 104, 169, 237, 160, 34, 54, 246, 53, 187, 246,
            101, 226, 134, 170, 232, 130, 177, 176, 179, 56, 124, 166, 161, 70,
            94, 32, 118, 176]⟩⟩,
          [Protocol.other "ip4" "198.51.100.19", Protocol.other "tcp" "30333"])
      ∧ ([Protocol.other "ip4" "198.51.100.19", Protocol.other "tcp" "30333"] ++
          [Protocol.p2p ⟨18, [65, 110, 228, 116, 104, 169, 237, 160, 34, 54, 246,
            53, 187, 246, 101, 226, 134, 170, 232, 130, 177, 176, 179, 56, 124,
            166, 161, 70, 94, 32, 118, 176]⟩]).length
        = [Protocol.other "ip4" "198.51.100.19", Protocol.other "tcp" "30333"].length + 1 :=
  parse_str_addr_strips_trailing_p2p
    "/ip4/198.51.100.19/tcp/30333/p2p/QmSk5HQbn6LhUwDiNMseVUjuRYhEtYj4aUZ6WfWoGURpdV"
    [Protocol.other "ip4" "198.51.100.19", Protocol.other "tcp" "30333"]
    ⟨18, [65, 110, 228, 116, 104, 169, 237, 160, 34, 54, 246, 53, 187, 246,
      101, 226, 134, 170, 232, 130, 177, 176, 179, 56, 124, 166, 161, 70,
      94, 32, 118, 176]⟩
    ⟨⟨18, [65, 110, 228, 116, 104, 169, 237, 160, 34, 54, 246, 53, 187, 246,
      101, 226, 134, 170, 232, 130, 177, 176, 179, 56, 124, 166, 161, 70,
      94, 32, 118, 176]⟩⟩
    (by rfl) (by rfl)

/-- C4: for every address lacking a trailing identity segment — the empty
address included — `parse_addr` fails with `PeerIdMissing` and never with a
different error kind, and so does `parse_str_addr` on any textual form of
that address. -/
theorem parse_addr_without_p2p_tail_peer_id_missing
    (addr : Multiaddr)
    (h : ∀ k : Multihash, addr.getLast? ≠ some (Protocol.p2p k)) :
    parse_addr addr = Except.error ParseErr.PeerIdMissing
      ∧ ∀ s : String, Multiaddr.fromString s = Except.ok addr →
          parse_str_addr s = Except.error ParseErr.PeerIdMissing := by
  have h1 : parse_addr addr = Except.error ParseErr.PeerIdMissing := by
    unfold parse_addr Multiaddr.pop
    cases hl : addr.getLast? with
    | none => rfl
    | some p =>
      cases p with
      | p2p k => exact absurd hl (h k)
      | other t v => rfl
  refine ⟨h1, ?_⟩
  intro s hs
  simp only [parse_str_addr, hs, h1]

/-- Witness for C4: the empty address. -/
theorem parse_addr_empty_peer_id_missing :
    parse_addr [] = Except.error ParseErr.PeerIdMissing :=
  (parse_addr_without_p2p_tail_peer_id_missing [] (by intro k h; cases h)).1

/-- C5: for every address whose trailing segment is a p2p segment whose
payload does not decode as a valid identity multihash, `parse_addr` fails
with `InvalidPeerId`. -/
theorem parse_addr_invalid_multihash_invalid_peer_id
    (pre : Multiaddr) (k : Multihash)
    (hk : PeerId.from_multihash k = Except.error k) :
    parse_addr (pre ++ [Protocol.p2p k]) = Except.error ParseErr.InvalidPeerId := by
  simp only [parse_addr, Multiaddr.pop, List.getLast?_concat, List.dropLast_concat, hk]

/-- Witness for C5: a single p2p segment with multihash code 0x11, which is
not a valid peer identity. -/
theorem parse_addr_invalid_multihash_witness :
    parse_addr [Protocol.p2p ⟨17, []⟩] = Except.error ParseErr.InvalidPeerId :=
  parse_addr_invalid_multihash_invalid_peer_id [] ⟨17, []⟩ (by rfl)

/-- C6: for every input string that the multiaddr grammar rejects,
`parse_str_addr` fails with `MultiaddrParse` wrapping the low-level
diagnostic. -/
theorem parse_str_addr_tokenize_error
    (s : String) (e : multiaddrError)
    (h : Multiaddr.fromString s = Except.error e) :
    parse_str_addr s = Except.error (ParseErr.MultiaddrParse e) := by
  simp only [parse_str_addr, h, ParseErr.fromMultiaddrError]

/-- Witness for C6: the spec's concrete malformed input. -/
theorem parse_str_addr_tokenize_error_witness :
    parse_str_addr "not a valid multiaddr"
      = Except.error (ParseErr.MultiaddrParse multiaddrError.invalidMultiaddr) :=
  parse_str_addr_tokenize_error "not a valid multiaddr"
    multiaddrError.invalidMultiaddr (by rfl)

/-- C10: an address consisting of exactly one segment, a p2p segment with a
valid identity multihash, parses successfully into that identity and the
empty remaining address. -/
theorem parse_addr_single_p2p_segment
    (k : Multihash) (pid : PeerId)
    (hk : PeerId.from_multihash k = Except.ok pid) :
    parse_addr [Protocol.p2p k] = Except.ok (pid, []) := by
  show parse_addr ([] ++ [Protocol.p2p k]) = Except.ok (pid, [])
  simp only [parse_addr, Multiaddr.pop, List.getLast?_concat, List.dropLast_concat, hk]

/-- Witness for C10: a sha2-256 multihash with a 32-byte digest. -/
theorem parse_addr_single_p2p_segment_witness :
    parse_addr [Protocol.p2p ⟨18, List.replicate 32 0⟩]
      = Except.ok (⟨⟨18, List.replicate 32 0⟩⟩, []) :=
  parse_addr_single_p2p_segment ⟨18, List.replicate 32 0⟩
    ⟨⟨18, List.replicate 32 0⟩⟩ (by rfl)

/-- C7: calling `set_boot_nodes` with list A and then list B leaves the
boot-node list equal to exactly B, and a zero-length list clears it. -/
theorem set_boot_nodes_last_wins (E : Type) (b : NetworkBuilder E)
    (A B : List (PeerId × Multiaddr)) :
    ((b.set_boot_nodes A).set_boot_nodes B).boot_nodes = B
      ∧ (b.set_boot_nodes []).boot_nodes = [] :=
  ⟨rfl, rfl⟩

/-- C8: `set_chain_spec_protocol_id` replaces the stored tag with exactly
the given bytes, for every byte sequence including the empty one, which is
accepted and leaves the tag empty. -/
theorem set_chain_spec_protocol_id_replaces (E : Type) (b : NetworkBuilder E)
    (id : List Nat) :
    ((b.set_chain_spec_protocol_id id).chain_spec_protocol_id = id)
      ∧ ((b.set_chain_spec_protocol_id []).chain_spec_protocol_id = []) :=
  ⟨rfl, rfl⟩

/-- C9: the freshly constructed builder has no executor, the 3-byte
chain-spec protocol id "sup", and an empty boot-node list; `builder` is a
total function, so construction cannot fail. -/
theorem builder_defaults (E : Type) :
    (builder E).executor = none
      ∧ (builder E).chain_spec_protocol_id = [115, 117, 112]
      ∧ (builder E).chain_spec_protocol_id = ("sup".toList.map Char.toNat)
      ∧ (builder E).boot_nodes = [] :=
  ⟨rfl, rfl, by simp [builder], rfl⟩

/-- C2 evaluation: `build` hands the worker only the boot nodes and the
chain-spec protocol id; two builders that differ exactly in the executor
produce the same worker configuration, so the executor assembled by the
builder is discarded at the hand-off. -/
theorem build_drops_executor :
    ((builder Unit).with_executor ()).build = (builder Unit).build
      ∧ ((builder Unit).with_executor ()).executor = some () :=
  ⟨rfl, rfl⟩

/-- C3 counterexample: the consuming executor setter `with_executor` has no
mutate-in-place counterpart in the source impl block, so not every mutating
builder operation exists in both forms. -/
theorem with_executor_lacks_in_place_form :
    BuilderOp.hasInPlaceCounterpart BuilderOp.withExecutor = false :=
  rfl

/-- C3 amended: the boot-node-list and chain-spec-protocol-id setters exist
in both forms, and for every builder state and input the chaining form
delegates to the in-place form and yields exactly its final state; the
executor setter exists only in the consuming form. -/
theorem chaining_setters_delegate_to_in_place (E : Type) (b : NetworkBuilder E)
    (l : List (PeerId × Multiaddr)) (id : List Nat) :
    b.with_boot_nodes l = b.set_boot_nodes l
      ∧ b.with_chain_spec_protocol_id id = b.set_chain_spec_protocol_id id
      ∧ BuilderOp.hasInPlaceCounterpart BuilderOp.withBootNodes = true
      ∧ BuilderOp.hasInPlaceCounterpart BuilderOp.withChainSpecProtocolId = true :=
  ⟨rfl, rfl, rfl, rfl⟩
